import Mathlib

/-!
Shallow embedding of the background-removal HTTP adapter
(src/bg-removal-server.py, src/bg-removal-server-v2.py,
src/withoutbg-server.py).

Each FastAPI endpoint handler is embedded as a pure Lean function.
External collaborators (the rembg / withoutBG segmentation models, PIL
image decoding, the httpx HTTP client) are passed in as explicit oracle
parameters, since they are libraries outside this repository.  The
process-global model session is threaded as explicit state.

Python exception semantics matter here: every handler wraps its body in
a try/except-Exception block that converts any exception - including a
fastapi.HTTPException raised inside the body, because HTTPException is
a subclass of Exception - into a fresh HTTPException with status 500
and detail "Processing failed: " followed by str(e).  The embedding
models the body as an Except value and the wrapper as runHandler.
-/

/-- An 8-bit RGBA pixel, channels in 0..255.  PIL pixels in mode RGB
carry no alpha; the embedding stores 255 there. -/
structure Pixel where
  r : Nat
  g : Nat
  b : Nat
  a : Nat
deriving Repr, DecidableEq

/-- PIL image modes that occur in these handlers. -/
inductive ImageMode
  | RGB
  | RGBA
deriving Repr, DecidableEq

/-- A decoded in-memory bitmap (PIL.Image.Image): spatial dimensions, a
mode, and a pixel lookup function. -/
structure Image where
  width : Nat
  height : Nat
  mode : ImageMode
  px : Nat → Nat → Pixel

/-- PIL convert to RGBA, applied by the handlers only when the mode is
not already RGBA (the embedding folds the guard into the function:
it is the identity on RGBA images).  Converting from RGB sets every
alpha to fully opaque, as PIL does. -/
def Image.convertRGBA (i : Image) : Image :=
  if i.mode = ImageMode.RGBA then i
  else { width := i.width, height := i.height, mode := ImageMode.RGBA,
         px := fun x y => { i.px x y with a := 255 } }

/-- PIL convert to RGB: drops the alpha channel (stored as 255). -/
def Image.convertRGB (i : Image) : Image :=
  { width := i.width, height := i.height, mode := ImageMode.RGB,
    px := fun x y => { i.px x y with a := 255 } }

/-- PIL Image.new: a constant-color canvas. -/
def pilNew (m : ImageMode) (w h : Nat) (c : Pixel) : Image :=
  { width := w, height := h, mode := m, px := fun _ _ => c }

/-- The standard alpha "over" operator on 8-bit unpremultiplied RGBA
pixels, source composited over destination: this models the per-pixel
effect of PIL.Image.alpha_composite.  outA is the result alpha scaled
by 255.  Integer rounding of intermediate alpha values may differ from
the PIL fixed-point code by at most the rounding mode; the result is
exact whenever the source pixel is fully transparent or fully opaque
over an opaque destination, which is all the claims use. -/
def alphaCompositePixel (dst src : Pixel) : Pixel :=
  let outA := src.a * 255 + dst.a * (255 - src.a)
  if outA = 0 then ⟨0, 0, 0, 0⟩
  else
    { r := (src.r * src.a * 255 + dst.r * dst.a * (255 - src.a)) / outA,
      g := (src.g * src.a * 255 + dst.g * dst.a * (255 - src.a)) / outA,
      b := (src.b * src.a * 255 + dst.b * dst.a * (255 - src.a)) / outA,
      a := outA / 255 }

/-- PIL.Image.alpha_composite im1 im2: composites im2 over im1.  Both
handler call sites build im1 with the size of im2, so the embedding
takes the dimensions from im1. -/
def alphaComposite (im1 im2 : Image) : Image :=
  { width := im1.width, height := im1.height, mode := ImageMode.RGBA,
    px := fun x y => alphaCompositePixel (im1.px x y) (im2.px x y) }

/-- A Python exception as observed by the except clause: either a
fastapi.HTTPException (status code and detail) or any other exception
carrying its message. -/
inductive PyExc
  | http (status : Nat) (detail : String)
  | other (message : String)
deriving Repr, DecidableEq

/-- str(e): starlette.HTTPException formats itself as
"{status_code}: {detail}"; other exceptions yield their message. -/
def PyExc.str : PyExc → String
  | .http s d => toString s ++ ": " ++ d
  | .other m => m

/-- Response body: an encoded image (PNG, or JPEG with the quality
passed to save), raw bytes passed through unchanged, or the JSON error
object FastAPI renders for an HTTPException. -/
inductive Body
  | png (img : Image)
  | jpeg (quality : Nat) (img : Image)
  | raw (data : List Nat)
  | errorJson (detail : String)

/-- An HTTP response as produced by the handlers. -/
structure HttpResponse where
  status : Nat
  mediaType : String
  headers : List (String × String)
  body : Body

/-- The JSON error response FastAPI renders for a raised HTTPException. -/
def errorResponse (status : Nat) (detail : String) : HttpResponse :=
  { status := status, mediaType := "application/json", headers := [],
    body := Body.errorJson detail }

/-- The try/except-Exception wrapper common to all handlers: a normal
return passes through, and ANY exception e - the 400 HTTPException for
oversized uploads included, since fastapi.HTTPException subclasses
Exception - is converted to a 500 HTTPException with detail
"Processing failed: " ++ str(e). -/
def runHandler : Except PyExc HttpResponse → HttpResponse
  | .ok r => r
  | .error e => errorResponse 500 ("Processing failed: " ++ e.str)

/-- A handle to loaded segmentation-model weights (rembg session or
WithoutBG instance). -/
structure ModelSession where
  modelName : String
deriving Repr, DecidableEq

/-- The process-global mutable state of a lazily loading server: the
memoized session, plus an instrumentation counter recording how many
times the session-construction line (new_session / opensource) ran. -/
structure ServerState where
  session : Option ModelSession
  initCount : Nat
deriving Repr, DecidableEq

/-- The lazy-initialization block `global session; if session is None:
session = new_session(...)` (and the identical get_model of
withoutbg-server): returns the session to use and the updated state. -/
def getSession (newSession : ModelSession) (st : ServerState) :
    ModelSession × ServerState :=
  match st.session with
  | some s => (s, st)
  | none => (newSession, { session := some newSession,
                           initCount := st.initCount + 1 })

/-- Outcome of one httpx GET attempt: a response with status and body
bytes, or a raised transport error with its message. -/
inductive FetchResult
  | success (status : Nat) (bodyBytes : List Nat)
  | failure (message : String)
deriving Repr, DecidableEq

/-- Message of the httpx.HTTPStatusError raised by raise_for_status
(abstracted to status and URL, the parts the handlers observe). -/
def statusErrorMessage (status : Nat) (url : String) : String :=
  "HTTP status error " ++ toString status ++ " for url " ++ url

/-- Message of the PIL.UnidentifiedImageError raised by Image.open on
bytes that are not a decodable image. -/
def identifyErrorMessage : String :=
  "cannot identify image file"

/-- The external collaborators of the handlers, passed as oracles.
newSession models rembg.new_session / WithoutBG.opensource; removeBytes
models rembg.remove on raw bytes; removeImage models rembg.remove /
WithoutBG.remove_background on a decoded image; decodeImage models
PIL.Image.open; fetch models one httpx GET of a URL, indexed by the
timeout in seconds and the attempt number. -/
structure Libs where
  newSession : ModelSession
  removeBytes : ModelSession → List Nat → List Nat
  removeImage : ModelSession → Image → Image
  decodeImage : List Nat → Option Image
  fetch : String → Nat → Nat → FetchResult

/-- Value of one base64 alphabet character (RFC 4648 table), none for
characters outside the alphabet. -/
def b64Index (c : Char) : Option Nat :=
  if 'A' ≤ c ∧ c ≤ 'Z' then some (c.toNat - 65)
  else if 'a' ≤ c ∧ c ≤ 'z' then some (c.toNat - 97 + 26)
  else if '0' ≤ c ∧ c ≤ '9' then some (c.toNat - 48 + 52)
  else if c = '+' then some 62
  else if c = '/' then some 63
  else none

/-- Whether a character is a base64 data character. -/
def isB64Datum (c : Char) : Bool :=
  (b64Index c).isSome

/-- Decode one base64 quad of four characters, where the padding
character may close the quad after two or three data characters, into
one to three bytes; none when the quad is malformed. -/
def decodeQuad : List Char → Option (List Nat)
  | [c0, c1, c2, c3] =>
    match b64Index c0, b64Index c1 with
    | some v0, some v1 =>
      if c2 = '=' then
        if c3 = '=' then some [v0 * 4 + v1 / 16] else none
      else
        match b64Index c2 with
        | some v2 =>
          if c3 = '=' then
            some [v0 * 4 + v1 / 16, (v1 % 16) * 16 + v2 / 4]
          else
            match b64Index c3 with
            | some v3 =>
              some [v0 * 4 + v1 / 16, (v1 % 16) * 16 + v2 / 4,
                    (v2 % 4) * 64 + v3]
            | none => none
        | none => none
    | _, _ => none
  | _ => none

/-- Decode a filtered base64 character sequence quad by quad; none when
some quad is malformed or the length is not a multiple of four. -/
def decodeQuads : List Char → Option (List Nat)
  | [] => some []
  | c0 :: c1 :: c2 :: c3 :: rest =>
    match decodeQuad [c0, c1, c2, c3], decodeQuads rest with
    | some bytes, some tail => some (bytes ++ tail)
    | _, _ => none
  | _ => none

/-- base64.b64decode as the handlers call it (default non-strict
validation): characters outside the alphabet and padding are discarded
first, then the remainder is decoded in quads, raising binascii.Error -
modeled as none - when the remaining length is not a multiple of four
or padding is misplaced inside a quad.  (CPython non-strict mode also
accepts further quads after a padded one, which the quad-by-quad
decoding reproduces.) -/
def pyB64Decode (s : String) : Option (List Nat) :=
  decodeQuads (s.data.filter (fun c => isB64Datum c || c = '='))

/-- Message of the binascii.Error raised by base64.b64decode on an
invalid base64 string (abstracted to its fixed prefix). -/
def base64ErrorMessage : String :=
  "Invalid base64-encoded string"

/-- Python truthiness of the Optional[List[int]] bgcolor field: None
and the empty list are falsy, any non-empty list is truthy. -/
def bgcolorTruthy : Option (List Nat) → Bool
  | none => false
  | some bc => !bc.isEmpty

/-- The compositing block shared by the URL and base64 handlers: when
`request.bgcolor and len(request.bgcolor) >= 3` holds, take the first
three elements as RGB and the fourth as alpha (default 255), convert
the foreground to RGBA if needed, build a solid canvas of the
foreground size, alpha-composite the foreground over it, and flatten
to RGB; otherwise return the image unchanged. -/
def compositeStage (bgcolor : Option (List Nat)) (img : Image) : Image :=
  match bgcolor with
  | some (r :: g :: b :: rest) =>
    let alpha := rest.headD 255
    let fg := img.convertRGBA
    let background := pilNew ImageMode.RGBA fg.width fg.height
      { r := r, g := g, b := b, a := alpha }
    (alphaComposite background fg).convertRGB
  | some _ => img
  | none => img

/-- The `format_type = "JPEG" if request.bgcolor else "PNG"` line. -/
def chooseFormat (bgcolor : Option (List Nat)) : String :=
  if bgcolorTruthy bgcolor then "JPEG" else "PNG"

/-- The `media_type = "image/jpeg" if request.bgcolor else "image/png"`
line. -/
def chooseMediaType (bgcolor : Option (List Nat)) : String :=
  if bgcolorTruthy bgcolor then "image/jpeg" else "image/png"

/-- PIL Image.save into a buffer with the given format string and
quality: the JPEG encoder refuses RGBA input (Pillow raises an OSError
"cannot write mode RGBA as JPEG"), while PNG accepts both modes and
ignores the quality argument. -/
def saveImage (formatType : String) (quality : Nat) (img : Image) :
    Except PyExc Body :=
  if formatType = "JPEG" then
    if img.mode = ImageMode.RGBA then
      Except.error (PyExc.other "cannot write mode RGBA as JPEG")
    else Except.ok (Body.jpeg quality img)
  else Except.ok (Body.png img)

/-- A multipart upload as the handlers see it: filename and the bytes
returned by file.read(). -/
structure UploadFile where
  filename : String
  content : List Nat

namespace V2

/-- Request body of /api/remove-bg-from-url (bg-removal-server-v2.py). -/
structure ImageUrlRequest where
  image_url : String
  bgcolor : Option (List Nat) := none

/-- Request body of /api/remove-bg-base64 (bg-removal-server-v2.py). -/
structure ImageBase64Request where
  image_base64 : String
  bgcolor : Option (List Nat) := none

/-- Body of the /api/remove-bg handler of bg-removal-server-v2.py,
before the except clause: size check, lazy session init, rembg remove
on the raw bytes, then a PNG response with a Content-Disposition
header. -/
def remove_backgroundBody (ext : Libs) (st : ServerState)
    (file : UploadFile) : ServerState × Except PyExc HttpResponse :=
  let input_data := file.content
  if input_data.length > 10 * 1024 * 1024 then
    (st, Except.error (PyExc.http 400 "File too large (max 10MB)"))
  else
    let gs := getSession ext.newSession st
    let output_data := ext.removeBytes gs.1 input_data
    (gs.2, Except.ok
      { status := 200, mediaType := "image/png",
        headers := [("Content-Disposition",
          "inline; filename=\"processed_" ++ file.filename ++ "\"")],
        body := Body.raw output_data })

/-- POST /api/remove-bg of bg-removal-server-v2.py: the body wrapped in
the try/except boundary. -/
def remove_background (ext : Libs) (st : ServerState)
    (file : UploadFile) : ServerState × HttpResponse :=
  ((remove_backgroundBody ext st file).1,
   runHandler (remove_backgroundBody ext st file).2)

/-- Body of the /api/remove-bg-from-url handler of
bg-removal-server-v2.py: one httpx GET with timeout 30 (attempt 0 and
no other), raise_for_status on a non-2xx status, PIL decode, lazy
session init, rembg remove on the image, the shared compositing block,
then save in the chosen format with quality 95. -/
def remove_background_from_urlBody (ext : Libs) (st : ServerState)
    (request : ImageUrlRequest) : ServerState × Except PyExc HttpResponse :=
  match ext.fetch request.image_url 30 0 with
  | FetchResult.failure msg => (st, Except.error (PyExc.other msg))
  | FetchResult.success status input_data =>
    if 200 ≤ status ∧ status ≤ 299 then
      match ext.decodeImage input_data with
      | none => (st, Except.error (PyExc.other identifyErrorMessage))
      | some image =>
        let gs := getSession ext.newSession st
        let output_image := ext.removeImage gs.1 image
        let output_image := compositeStage request.bgcolor output_image
        match saveImage (chooseFormat request.bgcolor) 95 output_image with
        | Except.error e => (gs.2, Except.error e)
        | Except.ok body =>
          (gs.2, Except.ok
            { status := 200, mediaType := chooseMediaType request.bgcolor,
              headers := [], body := body })
    else
      (st, Except.error
        (PyExc.other (statusErrorMessage status request.image_url)))

/-- POST /api/remove-bg-from-url of bg-removal-server-v2.py. -/
def remove_background_from_url (ext : Libs) (st : ServerState)
    (request : ImageUrlRequest) : ServerState × HttpResponse :=
  ((remove_background_from_urlBody ext st request).1,
   runHandler (remove_background_from_urlBody ext st request).2)

/-- Body of the /api/remove-bg-base64 handler of
bg-removal-server-v2.py: base64-decode the field, PIL decode, lazy
session init, rembg remove, the shared compositing block, then save in
the chosen format with quality 95. -/
def remove_background_from_base64Body (ext : Libs) (st : ServerState)
    (request : ImageBase64Request) :
    ServerState × Except PyExc HttpResponse :=
  match pyB64Decode request.image_base64 with
  | none => (st, Except.error (PyExc.other base64ErrorMessage))
  | some image_bytes =>
    match ext.decodeImage image_bytes with
    | none => (st, Except.error (PyExc.other identifyErrorMessage))
    | some image =>
      let gs := getSession ext.newSession st
      let output_image := ext.removeImage gs.1 image
      let output_image := compositeStage request.bgcolor output_image
      match saveImage (chooseFormat request.bgcolor) 95 output_image with
      | Except.error e => (gs.2, Except.error e)
      | Except.ok body =>
        (gs.2, Except.ok
          { status := 200, mediaType := chooseMediaType request.bgcolor,
            headers := [], body := body })

/-- POST /api/remove-bg-base64 of bg-removal-server-v2.py. -/
def remove_background_from_base64 (ext : Libs) (st : ServerState)
    (request : ImageBase64Request) : ServerState × HttpResponse :=
  ((remove_background_from_base64Body ext st request).1,
   runHandler (remove_background_from_base64Body ext st request).2)

/-- One request to bg-removal-server-v2.py that may touch the model. -/
inductive Request
  | upload (file : UploadFile)
  | fromUrl (request : ImageUrlRequest)
  | fromBase64 (request : ImageBase64Request)

/-- Sequential request processing for bg-removal-server-v2.py: which
handler runs for one request, threading the global session state. -/
def step (ext : Libs) (st : ServerState) : Request → ServerState × HttpResponse
  | Request.upload file => remove_background ext st file
  | Request.fromUrl request => remove_background_from_url ext st request
  | Request.fromBase64 request => remove_background_from_base64 ext st request

end V2

namespace V1

/-- POST /api/remove-bg of bg-removal-server.py: same size check and
PNG passthrough response as the v2 upload handler, but the rembg
session is created eagerly at module load and passed in. -/
def remove_background (ext : Libs) (session : ModelSession)
    (file : UploadFile) : HttpResponse :=
  runHandler
    (let input_data := file.content
     if input_data.length > 10 * 1024 * 1024 then
       Except.error (PyExc.http 400 "File too large (max 10MB)")
     else
       Except.ok
         { status := 200, mediaType := "image/png",
           headers := [("Content-Disposition",
             "inline; filename=\"processed_" ++ file.filename ++ "\"")],
           body := Body.raw (ext.removeBytes session input_data) })

end V1

namespace WB

/-- Request body of /api/remove-bg-from-url (withoutbg-server.py); the
model field is a compatibility placeholder the handler never reads. -/
structure ImageUrlRequest where
  image_url : String
  bgcolor : Option (List Nat) := none
  model : String := "withoutbg"

/-- Request body of /api/remove-bg-base64 (withoutbg-server.py). -/
structure ImageBase64Request where
  image_base64 : String
  bgcolor : Option (List Nat) := none
  model : String := "withoutbg"

/-- Body of the /api/remove-bg handler of withoutbg-server.py: size
check, PIL decode, get_model (lazy init), remove_background on the
image, then an unconditional PNG save and response with a
Content-Disposition header. -/
def remove_backgroundBody (ext : Libs) (st : ServerState)
    (file : UploadFile) : ServerState × Except PyExc HttpResponse :=
  let input_data := file.content
  if input_data.length > 10 * 1024 * 1024 then
    (st, Except.error (PyExc.http 400 "File too large (max 10MB)"))
  else
    match ext.decodeImage input_data with
    | none => (st, Except.error (PyExc.other identifyErrorMessage))
    | some image =>
      let gs := getSession ext.newSession st
      let output_image := ext.removeImage gs.1 image
      (gs.2, Except.ok
        { status := 200, mediaType := "image/png",
          headers := [("Content-Disposition",
            "inline; filename=\"processed_" ++ file.filename ++ "\"")],
          body := Body.png output_image })

/-- POST /api/remove-bg of withoutbg-server.py. -/
def remove_background (ext : Libs) (st : ServerState)
    (file : UploadFile) : ServerState × HttpResponse :=
  ((remove_backgroundBody ext st file).1,
   runHandler (remove_backgroundBody ext st file).2)

/-- Body of the /api/remove-bg-from-url handler of withoutbg-server.py:
textually the same pipeline as the v2 URL handler, with get_model as
the lazy initializer and the withoutBG model behind removeImage. -/
def remove_background_from_urlBody (ext : Libs) (st : ServerState)
    (request : ImageUrlRequest) : ServerState × Except PyExc HttpResponse :=
  match ext.fetch request.image_url 30 0 with
  | FetchResult.failure msg => (st, Except.error (PyExc.other msg))
  | FetchResult.success status input_data =>
    if 200 ≤ status ∧ status ≤ 299 then
      match ext.decodeImage input_data with
      | none => (st, Except.error (PyExc.other identifyErrorMessage))
      | some image =>
        let gs := getSession ext.newSession st
        let output_image := ext.removeImage gs.1 image
        let output_image := compositeStage request.bgcolor output_image
        match saveImage (chooseFormat request.bgcolor) 95 output_image with
        | Except.error e => (gs.2, Except.error e)
        | Except.ok body =>
          (gs.2, Except.ok
            { status := 200, mediaType := chooseMediaType request.bgcolor,
              headers := [], body := body })
    else
      (st, Except.error
        (PyExc.other (statusErrorMessage status request.image_url)))

/-- POST /api/remove-bg-from-url of withoutbg-server.py. -/
def remove_background_from_url (ext : Libs) (st : ServerState)
    (request : ImageUrlRequest) : ServerState × HttpResponse :=
  ((remove_background_from_urlBody ext st request).1,
   runHandler (remove_background_from_urlBody ext st request).2)

/-- Body of the /api/remove-bg-base64 handler of withoutbg-server.py. -/
def remove_background_from_base64Body (ext : Libs) (st : ServerState)
    (request : ImageBase64Request) :
    ServerState × Except PyExc HttpResponse :=
  match pyB64Decode request.image_base64 with
  | none => (st, Except.error (PyExc.other base64ErrorMessage))
  | some image_bytes =>
    match ext.decodeImage image_bytes with
    | none => (st, Except.error (PyExc.other identifyErrorMessage))
    | some image =>
      let gs := getSession ext.newSession st
      let output_image := ext.removeImage gs.1 image
      let output_image := compositeStage request.bgcolor output_image
      match saveImage (chooseFormat request.bgcolor) 95 output_image with
      | Except.error e => (gs.2, Except.error e)
      | Except.ok body =>
        (gs.2, Except.ok
          { status := 200, mediaType := chooseMediaType request.bgcolor,
            headers := [], body := body })

/-- POST /api/remove-bg-base64 of withoutbg-server.py. -/
def remove_background_from_base64 (ext : Libs) (st : ServerState)
    (request : ImageBase64Request) : ServerState × HttpResponse :=
  ((remove_background_from_base64Body ext st request).1,
   runHandler (remove_background_from_base64Body ext st request).2)

/-- One request to withoutbg-server.py that may touch the model. -/
inductive Request
  | upload (file : UploadFile)
  | fromUrl (request : ImageUrlRequest)
  | fromBase64 (request : ImageBase64Request)

/-- Sequential request processing for withoutbg-server.py. -/
def step (ext : Libs) (st : ServerState) : Request → ServerState × HttpResponse
  | Request.upload file => remove_background ext st file
  | Request.fromUrl request => remove_background_from_url ext st request
  | Request.fromBase64 request => remove_background_from_base64 ext st request

end WB

/-!
Test fixtures shared by the witnesses, followed by helper lemmas and
the claim theorems.
-/

/-- A concrete 1x1 RGBA image whose single pixel is fully transparent,
used by the witnesses as decoded input and model output. -/
def testImage : Image :=
  { width := 1, height := 1, mode := ImageMode.RGBA,
    px := fun _ _ => ⟨10, 20, 30, 0⟩ }

/-- A concrete oracle bundle for the witnesses: the model is the
identity on images and bytes, decoding always yields testImage, and
every fetch succeeds with status 200 and an empty body. -/
def testLibs : Libs :=
  { newSession := ⟨"u2netp"⟩,
    removeBytes := fun _ data => data,
    removeImage := fun _ i => i,
    decodeImage := fun _ => some testImage,
    fetch := fun _ _ _ => FetchResult.success 200 [] }

/-- The fresh server state: no session loaded, init counter zero. -/
def emptyState : ServerState := ⟨none, 0⟩

/-- A concrete upload of exactly 10 MiB. -/
def capFile : UploadFile :=
  ⟨"photo.jpg", List.replicate (10 * 1024 * 1024) 0⟩

/-- A concrete upload of 10 MiB + 1 bytes. -/
def bigFile : UploadFile :=
  ⟨"photo.jpg", List.replicate (10 * 1024 * 1024 + 1) 0⟩

/-- The lazy-initialization block returns the stored session untouched
when one is already memoized. -/
theorem getSession_of_some {s : ModelSession} (ns : ModelSession)
    {st : ServerState} (h : st.session = some s) :
    getSession ns st = (s, st) := by
  unfold getSession
  rw [h]

/-- After the lazy-initialization block the state always stores the
session that the block returned. -/
theorem getSession_snd_session (ns : ModelSession) (st : ServerState) :
    (getSession ns st).2.session = some (getSession ns st).1 := by
  unfold getSession
  cases h : st.session <;> simp [h]

/-- C1: the claim is HTTP 400 for oversized uploads, but the raised
400 HTTPException is itself an Exception, so the catch-all except
clause of every upload handler converts it into HTTP 500 with detail
"Processing failed: 400: File too large (max 10MB)".  The theorem
evaluates all three upload handlers on any body larger than 10 MiB. -/
theorem c1_oversized_upload_returns_500 (ext : Libs) (st : ServerState)
    (sess : ModelSession) (file : UploadFile)
    (h : file.content.length > 10 * 1024 * 1024) :
    V2.remove_background ext st file =
      (st, errorResponse 500
        "Processing failed: 400: File too large (max 10MB)") ∧
    WB.remove_background ext st file =
      (st, errorResponse 500
        "Processing failed: 400: File too large (max 10MB)") ∧
    V1.remove_background ext sess file =
      errorResponse 500
        "Processing failed: 400: File too large (max 10MB)" := by
  refine ⟨?_, ?_, ?_⟩ <;>
    · simp [V2.remove_background, V2.remove_backgroundBody,
        WB.remove_background, WB.remove_backgroundBody,
        V1.remove_background, runHandler, PyExc.str, h]
      rfl

/-- Witness for C1 at a concrete 10 MiB + 1 upload. -/
theorem c1_oversized_upload_returns_500_witness :
    bigFile.content.length > 10 * 1024 * 1024 ∧
    V2.remove_background testLibs emptyState bigFile =
      (emptyState, errorResponse 500
        "Processing failed: 400: File too large (max 10MB)") :=
  ⟨by simp only [bigFile, List.length_replicate]; exact Nat.lt_succ_self _,
   (c1_oversized_upload_returns_500 testLibs emptyState ⟨"u2netp"⟩ bigFile
      (by simp only [bigFile, List.length_replicate]
          exact Nat.lt_succ_self _)).1⟩

/-- C10: an oversized upload is rejected by the size check before the
lazy model-initialization block runs, so the global session state
(memoized session and init counter alike) is exactly the state from
before the request. -/
theorem c10_size_rejection_precedes_model_init (ext : Libs)
    (st : ServerState) (file : UploadFile)
    (h : file.content.length > 10 * 1024 * 1024) :
    (V2.remove_background ext st file).1 = st ∧
    (WB.remove_background ext st file).1 = st := by
  constructor <;>
    simp [V2.remove_background, V2.remove_backgroundBody,
      WB.remove_background, WB.remove_backgroundBody, h]

/-- Witness for C10 at a concrete 10 MiB + 1 upload against a fresh
server state. -/
theorem c10_size_rejection_precedes_model_init_witness :
    bigFile.content.length > 10 * 1024 * 1024 ∧
    (V2.remove_background testLibs emptyState bigFile).1 = emptyState ∧
    (WB.remove_background testLibs emptyState bigFile).1 = emptyState := by
  have h : bigFile.content.length > 10 * 1024 * 1024 := by
    simp only [bigFile, List.length_replicate]
    exact Nat.lt_succ_self _
  exact ⟨h,
    (c10_size_rejection_precedes_model_init testLibs emptyState bigFile h).1,
    (c10_size_rejection_precedes_model_init testLibs emptyState bigFile h).2⟩

/-- C8: an upload of exactly 10 * 1024 * 1024 bytes passes the strict
size check on all three upload endpoints and reaches the model: the
response is the 200 PNG built from the model output (raw rembg bytes
for the two rembg servers, the PNG-saved withoutBG image for the
withoutbg server). -/
theorem c8_exact_cap_upload_reaches_model (ext : Libs)
    (sess : ModelSession) (st : ServerState) (file : UploadFile)
    (img : Image) (hlen : file.content.length = 10 * 1024 * 1024)
    (hdec : ext.decodeImage file.content = some img) :
    V1.remove_background ext sess file =
      { status := 200, mediaType := "image/png",
        headers := [("Content-Disposition",
          "inline; filename=\"processed_" ++ file.filename ++ "\"")],
        body := Body.raw (ext.removeBytes sess file.content) } ∧
    (V2.remove_background ext st file).2 =
      { status := 200, mediaType := "image/png",
        headers := [("Content-Disposition",
          "inline; filename=\"processed_" ++ file.filename ++ "\"")],
        body := Body.raw
          (ext.removeBytes (getSession ext.newSession st).1
            file.content) } ∧
    (WB.remove_background ext st file).2 =
      { status := 200, mediaType := "image/png",
        headers := [("Content-Disposition",
          "inline; filename=\"processed_" ++ file.filename ++ "\"")],
        body := Body.png
          (ext.removeImage (getSession ext.newSession st).1 img) } := by
  have h : ¬ file.content.length > 10 * 1024 * 1024 := by omega
  refine ⟨?_, ?_, ?_⟩ <;>
    simp [V1.remove_background, V2.remove_background,
      V2.remove_backgroundBody, WB.remove_background,
      WB.remove_backgroundBody, runHandler, h, hdec]

/-- Witness for C8 at a concrete upload of exactly 10 MiB. -/
theorem c8_exact_cap_upload_reaches_model_witness :
    (capFile.content.length = 10 * 1024 * 1024 ∧
     testLibs.decodeImage capFile.content = some testImage) ∧
    (WB.remove_background testLibs emptyState capFile).2 =
      { status := 200, mediaType := "image/png",
        headers := [("Content-Disposition",
          "inline; filename=\"processed_" ++ capFile.filename ++ "\"")],
        body := Body.png
          (testLibs.removeImage
            (getSession testLibs.newSession emptyState).1 testImage) } :=
  ⟨⟨by simp only [capFile, List.length_replicate], rfl⟩,
   (c8_exact_cap_upload_reaches_model testLibs ⟨"u2netp"⟩ emptyState
      capFile testImage (by simp only [capFile, List.length_replicate])
      rfl).2.2⟩

/-- Every bg-removal-server-v2.py request either leaves the global
state unchanged or ends in the state produced by the lazy
initialization block. -/
theorem v2_upload_state_cases (ext : Libs) (st : ServerState)
    (file : UploadFile) :
    (V2.remove_background ext st file).1 = st ∨
    (V2.remove_background ext st file).1 = (getSession ext.newSession st).2 := by
  unfold V2.remove_background V2.remove_backgroundBody
  by_cases h : 10 * 1024 * 1024 < file.content.length <;> simp [h]

/-- State effect of the v2 URL handler. -/
theorem v2_url_state_cases (ext : Libs) (st : ServerState)
    (request : V2.ImageUrlRequest) :
    (V2.remove_background_from_url ext st request).1 = st ∨
    (V2.remove_background_from_url ext st request).1 =
      (getSession ext.newSession st).2 := by
  unfold V2.remove_background_from_url V2.remove_background_from_urlBody
  repeat' split
  all_goals try simp
  all_goals (right; split <;> rfl)

/-- State effect of the v2 base64 handler. -/
theorem v2_base64_state_cases (ext : Libs) (st : ServerState)
    (request : V2.ImageBase64Request) :
    (V2.remove_background_from_base64 ext st request).1 = st ∨
    (V2.remove_background_from_base64 ext st request).1 =
      (getSession ext.newSession st).2 := by
  unfold V2.remove_background_from_base64
    V2.remove_background_from_base64Body
  repeat' split
  all_goals try simp
  all_goals (right; split <;> rfl)

/-- State effect of one v2 request, whichever handler serves it. -/
theorem v2_step_state_cases (ext : Libs) (st : ServerState)
    (req : V2.Request) :
    (V2.step ext st req).1 = st ∨
    (V2.step ext st req).1 = (getSession ext.newSession st).2 := by
  cases req
  case upload file => exact v2_upload_state_cases ext st file
  case fromUrl request => exact v2_url_state_cases ext st request
  case fromBase64 request => exact v2_base64_state_cases ext st request

/-- Every withoutbg-server.py request either leaves the global state
unchanged or ends in the state produced by get_model. -/
theorem wb_upload_state_cases (ext : Libs) (st : ServerState)
    (file : UploadFile) :
    (WB.remove_background ext st file).1 = st ∨
    (WB.remove_background ext st file).1 = (getSession ext.newSession st).2 := by
  unfold WB.remove_background WB.remove_backgroundBody
  by_cases h : 10 * 1024 * 1024 < file.content.length <;> simp [h]
  split <;> simp

/-- State effect of the withoutbg URL handler. -/
theorem wb_url_state_cases (ext : Libs) (st : ServerState)
    (request : WB.ImageUrlRequest) :
    (WB.remove_background_from_url ext st request).1 = st ∨
    (WB.remove_background_from_url ext st request).1 =
      (getSession ext.newSession st).2 := by
  unfold WB.remove_background_from_url WB.remove_background_from_urlBody
  repeat' split
  all_goals try simp
  all_goals (right; split <;> rfl)

/-- State effect of the withoutbg base64 handler. -/
theorem wb_base64_state_cases (ext : Libs) (st : ServerState)
    (request : WB.ImageBase64Request) :
    (WB.remove_background_from_base64 ext st request).1 = st ∨
    (WB.remove_background_from_base64 ext st request).1 =
      (getSession ext.newSession st).2 := by
  unfold WB.remove_background_from_base64
    WB.remove_background_from_base64Body
  repeat' split
  all_goals try simp
  all_goals (right; split <;> rfl)

/-- State effect of one withoutbg request, whichever handler serves it. -/
theorem wb_step_state_cases (ext : Libs) (st : ServerState)
    (req : WB.Request) :
    (WB.step ext st req).1 = st ∨
    (WB.step ext st req).1 = (getSession ext.newSession st).2 := by
  cases req
  case upload file => exact wb_upload_state_cases ext st file
  case fromUrl request => exact wb_url_state_cases ext st request
  case fromBase64 request => exact wb_base64_state_cases ext st request

/-- Invariant of the lazily initializing servers: the init counter
never exceeds one, and it is still zero while no session is memoized. -/
def InitInv (st : ServerState) : Prop :=
  st.initCount ≤ 1 ∧ (st.session = none → st.initCount = 0)

/-- The lazy-initialization block preserves the invariant: it bumps the
counter only from a session-free state, whose counter is zero. -/
theorem getSession_initInv (ns : ModelSession) (st : ServerState)
    (h : InitInv st) : InitInv (getSession ns st).2 := by
  unfold getSession
  cases hs : st.session
  · simp [InitInv, h.2 hs]
  · simpa [InitInv] using h

/-- One v2 request preserves the initialization invariant. -/
theorem v2_step_initInv (ext : Libs) (st : ServerState)
    (req : V2.Request) (h : InitInv st) :
    InitInv (V2.step ext st req).1 := by
  rcases v2_step_state_cases ext st req with he | he <;> rw [he]
  · exact h
  · exact getSession_initInv _ _ h

/-- One withoutbg request preserves the initialization invariant. -/
theorem wb_step_initInv (ext : Libs) (st : ServerState)
    (req : WB.Request) (h : InitInv st) :
    InitInv (WB.step ext st req).1 := by
  rcases wb_step_state_cases ext st req with he | he <;> rw [he]
  · exact h
  · exact getSession_initInv _ _ h

/-- Sequential v2 request processing preserves the invariant. -/
theorem v2_fold_initInv (ext : Libs) (reqs : List V2.Request)
    (st : ServerState) (h : InitInv st) :
    InitInv (reqs.foldl (fun acc r => (V2.step ext acc r).1) st) := by
  induction reqs generalizing st with
  | nil => exact h
  | cons r rest ih => exact ih _ (v2_step_initInv ext st r h)

/-- Sequential withoutbg request processing preserves the invariant. -/
theorem wb_fold_initInv (ext : Libs) (reqs : List WB.Request)
    (st : ServerState) (h : InitInv st) :
    InitInv (reqs.foldl (fun acc r => (WB.step ext acc r).1) st) := by
  induction reqs generalizing st with
  | nil => exact h
  | cons r rest ih => exact ih _ (wb_step_initInv ext st r h)

/-- C6: on both lazily initializing servers, any sequential run from a
fresh process executes the session-construction line at most once, and
once a session is memoized every further request leaves the global
state - session and init counter - exactly as it was. -/
theorem c6_session_initialized_at_most_once (ext : Libs)
    (v2reqs : List V2.Request) (wbreqs : List WB.Request)
    (st : ServerState) (s : ModelSession) (rv : V2.Request)
    (rw : WB.Request) (h : st.session = some s) :
    (v2reqs.foldl (fun acc r => (V2.step ext acc r).1)
        emptyState).initCount ≤ 1 ∧
    (wbreqs.foldl (fun acc r => (WB.step ext acc r).1)
        emptyState).initCount ≤ 1 ∧
    (V2.step ext st rv).1 = st ∧
    (WB.step ext st rw).1 = st := by
  have hinv : InitInv emptyState := ⟨Nat.zero_le 1, fun _ => rfl⟩
  refine ⟨(v2_fold_initInv ext v2reqs emptyState hinv).1,
    (wb_fold_initInv ext wbreqs emptyState hinv).1, ?_, ?_⟩
  · rcases v2_step_state_cases ext st rv with he | he
    · exact he
    · rw [he, getSession_of_some ext.newSession h]
  · rcases wb_step_state_cases ext st rw with he | he
    · exact he
    · rw [he, getSession_of_some ext.newSession h]

/-- Witness for C6: a one-request run on each server, and a request
against a state that already memoizes a session. -/
theorem c6_session_initialized_at_most_once_witness :
    (ServerState.mk (some ⟨"u2netp"⟩) 1).session = some ⟨"u2netp"⟩ ∧
    ([V2.Request.upload ⟨"a.png", []⟩].foldl
        (fun acc r => (V2.step testLibs acc r).1)
        emptyState).initCount ≤ 1 ∧
    ([WB.Request.upload ⟨"a.png", []⟩].foldl
        (fun acc r => (WB.step testLibs acc r).1)
        emptyState).initCount ≤ 1 ∧
    (V2.step testLibs (ServerState.mk (some ⟨"u2netp"⟩) 1)
        (V2.Request.upload ⟨"a.png", []⟩)).1 =
      ServerState.mk (some ⟨"u2netp"⟩) 1 ∧
    (WB.step testLibs (ServerState.mk (some ⟨"u2netp"⟩) 1)
        (WB.Request.upload ⟨"a.png", []⟩)).1 =
      ServerState.mk (some ⟨"u2netp"⟩) 1 :=
  ⟨rfl,
   (c6_session_initialized_at_most_once testLibs
      [V2.Request.upload ⟨"a.png", []⟩] [WB.Request.upload ⟨"a.png", []⟩]
      (ServerState.mk (some ⟨"u2netp"⟩) 1) ⟨"u2netp"⟩
      (V2.Request.upload ⟨"a.png", []⟩) (WB.Request.upload ⟨"a.png", []⟩)
      rfl).1,
   (c6_session_initialized_at_most_once testLibs
      [V2.Request.upload ⟨"a.png", []⟩] [WB.Request.upload ⟨"a.png", []⟩]
      (ServerState.mk (some ⟨"u2netp"⟩) 1) ⟨"u2netp"⟩
      (V2.Request.upload ⟨"a.png", []⟩) (WB.Request.upload ⟨"a.png", []⟩)
      rfl).2.1,
   (c6_session_initialized_at_most_once testLibs
      [V2.Request.upload ⟨"a.png", []⟩] [WB.Request.upload ⟨"a.png", []⟩]
      (ServerState.mk (some ⟨"u2netp"⟩) 1) ⟨"u2netp"⟩
      (V2.Request.upload ⟨"a.png", []⟩) (WB.Request.upload ⟨"a.png", []⟩)
      rfl).2.2.1,
   (c6_session_initialized_at_most_once testLibs
      [V2.Request.upload ⟨"a.png", []⟩] [WB.Request.upload ⟨"a.png", []⟩]
      (ServerState.mk (some ⟨"u2netp"⟩) 1) ⟨"u2netp"⟩
      (V2.Request.upload ⟨"a.png", []⟩) (WB.Request.upload ⟨"a.png", []⟩)
      rfl).2.2.2⟩

/-- An oracle bundle whose fetch always reports HTTP 404. -/
def fetch404Libs : Libs :=
  { testLibs with fetch := fun _ _ _ => FetchResult.success 404 [] }

/-- An oracle bundle whose fetch always raises a transport error. -/
def fetchFailLibs : Libs :=
  { testLibs with fetch := fun _ _ _ => FetchResult.failure "Connection refused" }

/-- C4: when the image_base64 field does not decode as base64, both
base64 endpoints surface the binascii.Error through the catch-all
except clause as HTTP 500 with a "Processing failed: ..." detail; the
response body is the JSON error object, never a partial image, and the
session state is untouched. -/
theorem c4_invalid_base64_returns_500 (ext : Libs) (st : ServerState)
    (reqV : V2.ImageBase64Request) (reqW : WB.ImageBase64Request)
    (hV : pyB64Decode reqV.image_base64 = none)
    (hW : pyB64Decode reqW.image_base64 = none) :
    V2.remove_background_from_base64 ext st reqV =
      (st, errorResponse 500
        ("Processing failed: " ++ base64ErrorMessage)) ∧
    WB.remove_background_from_base64 ext st reqW =
      (st, errorResponse 500
        ("Processing failed: " ++ base64ErrorMessage)) := by
  constructor <;>
    simp [V2.remove_background_from_base64,
      V2.remove_background_from_base64Body,
      WB.remove_background_from_base64,
      WB.remove_background_from_base64Body,
      runHandler, PyExc.str, hV, hW]

/-- Witness for C4 at the one-character string "A", which is not valid
base64 (one data character is one more than a multiple of four). -/
theorem c4_invalid_base64_returns_500_witness :
    pyB64Decode "A" = none ∧
    V2.remove_background_from_base64 testLibs emptyState ⟨"A", none⟩ =
      (emptyState, errorResponse 500
        ("Processing failed: " ++ base64ErrorMessage)) ∧
    WB.remove_background_from_base64 testLibs emptyState
        ⟨"A", none, "withoutbg"⟩ =
      (emptyState, errorResponse 500
        ("Processing failed: " ++ base64ErrorMessage)) :=
  ⟨rfl,
   (c4_invalid_base64_returns_500 testLibs emptyState ⟨"A", none⟩
      ⟨"A", none, "withoutbg"⟩ rfl rfl).1,
   (c4_invalid_base64_returns_500 testLibs emptyState ⟨"A", none⟩
      ⟨"A", none, "withoutbg"⟩ rfl rfl).2⟩

/-- C5: the URL endpoints consult the fetch oracle only at timeout 30
seconds and attempt index 0 (hence one bounded attempt and no retry:
replacing the oracle by any other that agrees there leaves the
response unchanged), and both a raised transport error and a non-2xx
status - 404 included - surface as HTTP 500 with a
"Processing failed: ..." detail. -/
theorem c5_url_fetch_error_handling :
    (∀ (ext : Libs) (f2 : String → Nat → Nat → FetchResult)
        (st : ServerState) (req : V2.ImageUrlRequest),
      ext.fetch req.image_url 30 0 = f2 req.image_url 30 0 →
        V2.remove_background_from_url ext st req =
          V2.remove_background_from_url { ext with fetch := f2 } st req) ∧
    (∀ (ext : Libs) (f2 : String → Nat → Nat → FetchResult)
        (st : ServerState) (req : WB.ImageUrlRequest),
      ext.fetch req.image_url 30 0 = f2 req.image_url 30 0 →
        WB.remove_background_from_url ext st req =
          WB.remove_background_from_url { ext with fetch := f2 } st req) ∧
    (∀ (ext : Libs) (st : ServerState) (req : V2.ImageUrlRequest)
        (msg : String),
      ext.fetch req.image_url 30 0 = FetchResult.failure msg →
        (V2.remove_background_from_url ext st req).2 =
          errorResponse 500 ("Processing failed: " ++ msg)) ∧
    (∀ (ext : Libs) (st : ServerState) (req : WB.ImageUrlRequest)
        (msg : String),
      ext.fetch req.image_url 30 0 = FetchResult.failure msg →
        (WB.remove_background_from_url ext st req).2 =
          errorResponse 500 ("Processing failed: " ++ msg)) ∧
    (∀ (ext : Libs) (st : ServerState) (req : V2.ImageUrlRequest)
        (status : Nat) (bs : List Nat),
      ext.fetch req.image_url 30 0 = FetchResult.success status bs →
      ¬ (200 ≤ status ∧ status ≤ 299) →
        (V2.remove_background_from_url ext st req).2 =
          errorResponse 500 ("Processing failed: " ++
            statusErrorMessage status req.image_url)) ∧
    (∀ (ext : Libs) (st : ServerState) (req : WB.ImageUrlRequest)
        (status : Nat) (bs : List Nat),
      ext.fetch req.image_url 30 0 = FetchResult.success status bs →
      ¬ (200 ≤ status ∧ status ≤ 299) →
        (WB.remove_background_from_url ext st req).2 =
          errorResponse 500 ("Processing failed: " ++
            statusErrorMessage status req.image_url)) := by
  refine ⟨?_, ?_, ?_, ?_, ?_, ?_⟩
  · intro ext f2 st req h
    unfold V2.remove_background_from_url V2.remove_background_from_urlBody
    rw [h]
  · intro ext f2 st req h
    unfold WB.remove_background_from_url WB.remove_background_from_urlBody
    rw [h]
  · intro ext st req msg h
    simp [V2.remove_background_from_url, V2.remove_background_from_urlBody,
      runHandler, PyExc.str, h]
  · intro ext st req msg h
    simp [WB.remove_background_from_url, WB.remove_background_from_urlBody,
      runHandler, PyExc.str, h]
  · intro ext st req status bs h hns
    simp [V2.remove_background_from_url, V2.remove_background_from_urlBody,
      runHandler, PyExc.str, h, hns]
  · intro ext st req status bs h hns
    simp [WB.remove_background_from_url, WB.remove_background_from_urlBody,
      runHandler, PyExc.str, h, hns]

/-- Witness for C5: a transport failure on the v2 endpoint and a 404
on the withoutbg endpoint, both against concrete oracles. -/
theorem c5_url_fetch_error_handling_witness :
    (fetchFailLibs.fetch "http://example.com/a.png" 30 0 =
        FetchResult.failure "Connection refused" ∧
     (V2.remove_background_from_url fetchFailLibs emptyState
        ⟨"http://example.com/a.png", none⟩).2 =
       errorResponse 500 ("Processing failed: " ++ "Connection refused")) ∧
    (fetch404Libs.fetch "http://example.com/a.png" 30 0 =
        FetchResult.success 404 [] ∧
     ¬ (200 ≤ 404 ∧ 404 ≤ 299) ∧
     (WB.remove_background_from_url fetch404Libs emptyState
        ⟨"http://example.com/a.png", none, "withoutbg"⟩).2 =
       errorResponse 500 ("Processing failed: " ++
         statusErrorMessage 404 "http://example.com/a.png")) :=
  ⟨⟨rfl,
    c5_url_fetch_error_handling.2.2.1 fetchFailLibs emptyState
      ⟨"http://example.com/a.png", none⟩ "Connection refused" rfl⟩,
   ⟨rfl, by decide,
    c5_url_fetch_error_handling.2.2.2.2.2 fetch404Libs emptyState
      ⟨"http://example.com/a.png", none, "withoutbg"⟩ 404 [] rfl
      (by decide)⟩⟩

/-- C7: a valid upload of at most 10 MiB returns HTTP 200 with media
type image/png, a Content-Disposition inline header naming
processed_<original-filename>, and a PNG body; on the withoutbg server
the PNG encodes the model output, whose dimensions equal the decoded
input dimensions under the stated model assumption, and on
bg-removal-server.py the body is the rembg output bytes passed through
unchanged. -/
theorem c7_valid_upload_returns_png_same_size (ext : Libs)
    (sess : ModelSession) (st : ServerState) (file : UploadFile)
    (img : Image)
    (hlen : file.content.length ≤ 10 * 1024 * 1024)
    (hdec : ext.decodeImage file.content = some img)
    (hw : (ext.removeImage (getSession ext.newSession st).1 img).width =
      img.width)
    (hh : (ext.removeImage (getSession ext.newSession st).1 img).height =
      img.height) :
    (WB.remove_background ext st file).2 =
      { status := 200, mediaType := "image/png",
        headers := [("Content-Disposition",
          "inline; filename=\"processed_" ++ file.filename ++ "\"")],
        body := Body.png
          (ext.removeImage (getSession ext.newSession st).1 img) } ∧
    (ext.removeImage (getSession ext.newSession st).1 img).width =
      img.width ∧
    (ext.removeImage (getSession ext.newSession st).1 img).height =
      img.height ∧
    V1.remove_background ext sess file =
      { status := 200, mediaType := "image/png",
        headers := [("Content-Disposition",
          "inline; filename=\"processed_" ++ file.filename ++ "\"")],
        body := Body.raw (ext.removeBytes sess file.content) } := by
  have h : ¬ file.content.length > 10 * 1024 * 1024 := by omega
  refine ⟨?_, hw, hh, ?_⟩ <;>
    simp [WB.remove_background, WB.remove_backgroundBody,
      V1.remove_background, runHandler, h, hdec]

/-- Witness for C7 at a concrete small upload with the identity model. -/
theorem c7_valid_upload_returns_png_same_size_witness :
    ((UploadFile.mk "cat.jpg" []).content.length ≤ 10 * 1024 * 1024 ∧
     testLibs.decodeImage (UploadFile.mk "cat.jpg" []).content =
       some testImage) ∧
    (WB.remove_background testLibs emptyState ⟨"cat.jpg", []⟩).2 =
      { status := 200, mediaType := "image/png",
        headers := [("Content-Disposition",
          "inline; filename=\"processed_cat.jpg\"")],
        body := Body.png
          (testLibs.removeImage
            (getSession testLibs.newSession emptyState).1 testImage) } :=
  ⟨⟨by decide, rfl⟩,
   (c7_valid_upload_returns_png_same_size testLibs ⟨"u2netp"⟩ emptyState
      ⟨"cat.jpg", []⟩ testImage (by decide) rfl rfl rfl).1⟩

/-- C3: on the URL and base64 endpoints the output is saved as JPEG at
quality 95 with media type image/jpeg exactly when a fill color is
supplied, and as PNG with media type image/png when bgcolor is absent;
bgcolor is constrained by the interface to an RGB or RGBA list of 3-4
integers, which the well-formedness hypothesis records. -/
theorem c3_jpeg95_iff_fill_color (ext : Libs) (st : ServerState)
    (reqV : V2.ImageBase64Request) (reqW : WB.ImageUrlRequest)
    (bytesV bsW : List Nat) (imgV imgW : Image)
    (hwfV : reqV.bgcolor = none ∨
      ∃ bc, reqV.bgcolor = some bc ∧ 3 ≤ bc.length ∧ bc.length ≤ 4)
    (hwfW : reqW.bgcolor = none ∨
      ∃ bc, reqW.bgcolor = some bc ∧ 3 ≤ bc.length ∧ bc.length ≤ 4)
    (hb : pyB64Decode reqV.image_base64 = some bytesV)
    (hdV : ext.decodeImage bytesV = some imgV)
    (hfW : ext.fetch reqW.image_url 30 0 = FetchResult.success 200 bsW)
    (hdW : ext.decodeImage bsW = some imgW) :
    (reqV.bgcolor ≠ none →
      (V2.remove_background_from_base64 ext st reqV).2 =
        { status := 200, mediaType := "image/jpeg", headers := [],
          body := Body.jpeg 95 (compositeStage reqV.bgcolor
            (ext.removeImage (getSession ext.newSession st).1 imgV)) }) ∧
    (reqV.bgcolor = none →
      (V2.remove_background_from_base64 ext st reqV).2 =
        { status := 200, mediaType := "image/png", headers := [],
          body := Body.png
            (ext.removeImage (getSession ext.newSession st).1 imgV) }) ∧
    (reqW.bgcolor ≠ none →
      (WB.remove_background_from_url ext st reqW).2 =
        { status := 200, mediaType := "image/jpeg", headers := [],
          body := Body.jpeg 95 (compositeStage reqW.bgcolor
            (ext.removeImage (getSession ext.newSession st).1 imgW)) }) ∧
    (reqW.bgcolor = none →
      (WB.remove_background_from_url ext st reqW).2 =
        { status := 200, mediaType := "image/png", headers := [],
          body := Body.png
            (ext.removeImage (getSession ext.newSession st).1 imgW) }) := by
  refine ⟨?_, ?_, ?_, ?_⟩
  · intro hne
    rcases hwfV with h0 | ⟨bc, hbc, h3, _⟩
    · exact absurd h0 hne
    · rcases bc with _ | ⟨r, bc⟩
      · simp at h3
      rcases bc with _ | ⟨g, bc⟩
      · simp at h3
      rcases bc with _ | ⟨b, rest⟩
      · simp at h3
      simp [V2.remove_background_from_base64,
        V2.remove_background_from_base64Body, hb, hdV, hbc,
        compositeStage, chooseFormat, chooseMediaType, bgcolorTruthy,
        saveImage, runHandler, Image.convertRGB, alphaComposite]
  · intro h0
    simp [V2.remove_background_from_base64,
      V2.remove_background_from_base64Body, hb, hdV, h0,
      compositeStage, chooseFormat, chooseMediaType, bgcolorTruthy,
      saveImage, runHandler]
  · intro hne
    rcases hwfW with h0 | ⟨bc, hbc, h3, _⟩
    · exact absurd h0 hne
    · rcases bc with _ | ⟨r, bc⟩
      · simp at h3
      rcases bc with _ | ⟨g, bc⟩
      · simp at h3
      rcases bc with _ | ⟨b, rest⟩
      · simp at h3
      simp [WB.remove_background_from_url,
        WB.remove_background_from_urlBody, hfW, hdW, hbc,
        compositeStage, chooseFormat, chooseMediaType, bgcolorTruthy,
        saveImage, runHandler, Image.convertRGB, alphaComposite]
  · intro h0
    simp [WB.remove_background_from_url,
      WB.remove_background_from_urlBody, hfW, hdW, h0,
      compositeStage, chooseFormat, chooseMediaType, bgcolorTruthy,
      saveImage, runHandler]

/-- Witness for C3: a white fill color on the v2 base64 endpoint gives
the quality-95 JPEG response, and no fill color on the withoutbg URL
endpoint gives the PNG response. -/
theorem c3_jpeg95_iff_fill_color_witness :
    (V2.remove_background_from_base64 testLibs emptyState
        ⟨"AAAA", some [255, 255, 255]⟩).2 =
      { status := 200, mediaType := "image/jpeg", headers := [],
        body := Body.jpeg 95 (compositeStage (some [255, 255, 255])
          (testLibs.removeImage
            (getSession testLibs.newSession emptyState).1 testImage)) } ∧
    (WB.remove_background_from_url testLibs emptyState
        ⟨"http://example.com/b.png", none, "withoutbg"⟩).2 =
      { status := 200, mediaType := "image/png", headers := [],
        body := Body.png
          (testLibs.removeImage
            (getSession testLibs.newSession emptyState).1 testImage) } :=
  ⟨(c3_jpeg95_iff_fill_color testLibs emptyState
      ⟨"AAAA", some [255, 255, 255]⟩
      ⟨"http://example.com/b.png", none, "withoutbg"⟩
      [0, 0, 0] [] testImage testImage
      (Or.inr ⟨[255, 255, 255], rfl, by decide, by decide⟩)
      (Or.inl rfl) rfl rfl rfl rfl).1 (Option.some_ne_none _),
   (c3_jpeg95_iff_fill_color testLibs emptyState
      ⟨"AAAA", some [255, 255, 255]⟩
      ⟨"http://example.com/b.png", none, "withoutbg"⟩
      [0, 0, 0] [] testImage testImage
      (Or.inr ⟨[255, 255, 255], rfl, by decide, by decide⟩)
      (Or.inl rfl) rfl rfl rfl rfl).2.2.2 rfl⟩

/-- C2: with bgcolor = [255, 255, 255] the URL and base64 endpoints
respond with media type image/jpeg carrying the model foreground
alpha-composited over an opaque white canvas, and every pixel whose
foreground alpha is 0 comes out exactly white (255, 255, 255) in the
composited image. -/
theorem c2_white_bgcolor_transparent_pixels_become_white (ext : Libs)
    (st : ServerState) (url b64 : String) (bs bytes2 : List Nat)
    (imgU imgB : Image)
    (hf : ext.fetch url 30 0 = FetchResult.success 200 bs)
    (hdU : ext.decodeImage bs = some imgU)
    (hb : pyB64Decode b64 = some bytes2)
    (hdB : ext.decodeImage bytes2 = some imgB) :
    (V2.remove_background_from_url ext st ⟨url, some [255, 255, 255]⟩).2 =
      { status := 200, mediaType := "image/jpeg", headers := [],
        body := Body.jpeg 95 (compositeStage (some [255, 255, 255])
          (ext.removeImage (getSession ext.newSession st).1 imgU)) } ∧
    (WB.remove_background_from_base64 ext st
        ⟨b64, some [255, 255, 255], "withoutbg"⟩).2 =
      { status := 200, mediaType := "image/jpeg", headers := [],
        body := Body.jpeg 95 (compositeStage (some [255, 255, 255])
          (ext.removeImage (getSession ext.newSession st).1 imgB)) } ∧
    (∀ (img : Image) (x y : Nat), (img.convertRGBA.px x y).a = 0 →
      (compositeStage (some [255, 255, 255]) img).px x y =
        ⟨255, 255, 255, 255⟩) := by
  refine ⟨?_, ?_, ?_⟩
  · simp [V2.remove_background_from_url, V2.remove_background_from_urlBody,
      hf, hdU, compositeStage, chooseFormat, chooseMediaType,
      bgcolorTruthy, saveImage, runHandler, Image.convertRGB,
      alphaComposite]
  · simp [WB.remove_background_from_base64,
      WB.remove_background_from_base64Body, hb, hdB, compositeStage,
      chooseFormat, chooseMediaType, bgcolorTruthy, saveImage,
      runHandler, Image.convertRGB, alphaComposite]
  · intro img x y h
    unfold compositeStage Image.convertRGB alphaComposite pilNew
    simp only []
    unfold alphaCompositePixel
    rw [h]
    norm_num

/-- Witness for C2: the 1x1 fully transparent test image composited
with white on the v2 URL endpoint, and the pixel fact at its only
pixel. -/
theorem c2_white_bgcolor_transparent_pixels_become_white_witness :
    (V2.remove_background_from_url testLibs emptyState
        ⟨"http://example.com/c.png", some [255, 255, 255]⟩).2 =
      { status := 200, mediaType := "image/jpeg", headers := [],
        body := Body.jpeg 95 (compositeStage (some [255, 255, 255])
          (testLibs.removeImage
            (getSession testLibs.newSession emptyState).1 testImage)) } ∧
    ((testImage.convertRGBA.px 0 0).a = 0 ∧
     (compositeStage (some [255, 255, 255]) testImage).px 0 0 =
       ⟨255, 255, 255, 255⟩) :=
  ⟨(c2_white_bgcolor_transparent_pixels_become_white testLibs emptyState
      "http://example.com/c.png" "AAAA" [] [0, 0, 0] testImage testImage
      rfl rfl rfl rfl).1,
   rfl,
   (c2_white_bgcolor_transparent_pixels_become_white testLibs emptyState
      "http://example.com/c.png" "AAAA" [] [0, 0, 0] testImage testImage
      rfl rfl rfl rfl).2.2 testImage 0 0 rfl⟩

/-- C9: a non-empty bgcolor with fewer than three elements fails the
compositing condition (which needs at least three) but satisfies the
format condition (which only tests truthiness), so the compositing
step is skipped - the image keeps its background - while the format
and media type are nevertheless chosen as JPEG; if the uncomposited
model output is still RGBA the subsequent JPEG save raises, surfacing
as a 500, and if it is RGB the response is the quality-95 JPEG of the
unmodified model output. -/
theorem c9_short_bgcolor_skips_composite_still_jpeg (ext : Libs)
    (st : ServerState) (url b64 : String) (bc : List Nat)
    (bs bytes2 : List Nat) (imgU imgB : Image)
    (hne : bc ≠ []) (hlt : bc.length < 3)
    (hf : ext.fetch url 30 0 = FetchResult.success 200 bs)
    (hdU : ext.decodeImage bs = some imgU)
    (hb : pyB64Decode b64 = some bytes2)
    (hdB : ext.decodeImage bytes2 = some imgB) :
    (∀ img : Image, compositeStage (some bc) img = img) ∧
    chooseFormat (some bc) = "JPEG" ∧
    chooseMediaType (some bc) = "image/jpeg" ∧
    ((ext.removeImage (getSession ext.newSession st).1 imgU).mode =
        ImageMode.RGBA →
      (V2.remove_background_from_url ext st ⟨url, some bc⟩).2 =
        errorResponse 500
          ("Processing failed: " ++ "cannot write mode RGBA as JPEG")) ∧
    ((ext.removeImage (getSession ext.newSession st).1 imgU).mode =
        ImageMode.RGB →
      (V2.remove_background_from_url ext st ⟨url, some bc⟩).2 =
        { status := 200, mediaType := "image/jpeg", headers := [],
          body := Body.jpeg 95
            (ext.removeImage (getSession ext.newSession st).1 imgU) }) ∧
    ((ext.removeImage (getSession ext.newSession st).1 imgB).mode =
        ImageMode.RGBA →
      (WB.remove_background_from_base64 ext st
          ⟨b64, some bc, "withoutbg"⟩).2 =
        errorResponse 500
          ("Processing failed: " ++ "cannot write mode RGBA as JPEG")) ∧
    ((ext.removeImage (getSession ext.newSession st).1 imgB).mode =
        ImageMode.RGB →
      (WB.remove_background_from_base64 ext st
          ⟨b64, some bc, "withoutbg"⟩).2 =
        { status := 200, mediaType := "image/jpeg", headers := [],
          body := Body.jpeg 95
            (ext.removeImage (getSession ext.newSession st).1 imgB) }) := by
  obtain ⟨a, bc', rfl⟩ : ∃ a t, bc = a :: t := by
    cases bc with
    | nil => exact absurd rfl hne
    | cons a t => exact ⟨a, t, rfl⟩
  have hskip : ∀ img : Image, compositeStage (some (a :: bc')) img = img := by
    intro img
    rcases bc' with _ | ⟨b, _ | ⟨c, rest⟩⟩
    · rfl
    · rfl
    · exact absurd hlt (by simp)
  refine ⟨hskip, rfl, rfl, ?_, ?_, ?_, ?_⟩ <;> intro hmode <;>
    simp [V2.remove_background_from_url, V2.remove_background_from_urlBody,
      WB.remove_background_from_base64,
      WB.remove_background_from_base64Body, hf, hdU, hb, hdB, hskip,
      chooseFormat, chooseMediaType, bgcolorTruthy, saveImage, hmode,
      runHandler, PyExc.str]

/-- Witness for C9 at bgcolor = [255] with the RGBA test image: the
composite is skipped, the format is JPEG, and the JPEG save of the
still-RGBA output surfaces as a 500. -/
theorem c9_short_bgcolor_skips_composite_still_jpeg_witness :
    ([255] : List Nat) ≠ [] ∧ ([255] : List Nat).length < 3 ∧
    compositeStage (some [255]) testImage = testImage ∧
    chooseFormat (some [255]) = "JPEG" ∧
    ((testLibs.removeImage
        (getSession testLibs.newSession emptyState).1 testImage).mode =
      ImageMode.RGBA ∧
     (V2.remove_background_from_url testLibs emptyState
        ⟨"http://example.com/d.png", some [255]⟩).2 =
       errorResponse 500
         ("Processing failed: " ++ "cannot write mode RGBA as JPEG")) :=
  ⟨by decide, by decide,
   (c9_short_bgcolor_skips_composite_still_jpeg testLibs emptyState
      "http://example.com/d.png" "AAAA" [255] [] [0, 0, 0] testImage
      testImage (by decide) (by decide) rfl rfl rfl rfl).1 testImage,
   (c9_short_bgcolor_skips_composite_still_jpeg testLibs emptyState
      "http://example.com/d.png" "AAAA" [255] [] [0, 0, 0] testImage
      testImage (by decide) (by decide) rfl rfl rfl rfl).2.1,
   rfl,
   (c9_short_bgcolor_skips_composite_still_jpeg testLibs emptyState
      "http://example.com/d.png" "AAAA" [255] [] [0, 0, 0] testImage
      testImage (by decide) (by decide) rfl rfl rfl rfl).2.2.2.1 rfl⟩
